import Mathlib

/-!
Verification of the HTTP response-formatting and error-translation boundary
(src/server/reply.rs): the serialized reply envelope, the storage-error
classifier, the generic error-reply builder, and the invoice-creation
response type.
-/

set_option maxRecDepth 4000

namespace BindleReply

/-- Modelled from the spec: the sub-kind carried by a standard I/O error
(std::io::ErrorKind is an external type). The layer only distinguishes the
"resource absent" sub-kind (ErrorKind::NotFound); the remaining variants stand
for every other sub-kind. -/
inductive IOKind where
  | notFound
  | permissionDenied
  | other
deriving DecidableEq

/-- Modelled from the spec: the closed StorageError taxonomy of the storage
collaborator (its declaration is repository code outside src). The kind set is
exactly the one the classifier in src matches on: Yanked, CreateYanked,
NotFound, an I/O kind carrying a sub-kind (constructor `io`, written IO in the
source, whose sub-kind the source reads with e.kind()), Exists, Malformed,
Unserializable, DigestMismatch, InvalidId. Payloads of Malformed and
Unserializable are opaque texts. -/
inductive StorageError where
  | Yanked
  | CreateYanked
  | NotFound
  | io (k : IOKind)
  | Exists
  | Malformed (msg : String)
  | Unserializable (msg : String)
  | DigestMismatch
  | InvalidId
deriving DecidableEq

/-- Modelled from the spec: the textual rendering (the ToString/Display
implementation) of a StorageError lives with the storage collaborator, outside
src. The spec fixes the Yanked text as "bindle is yanked"; the other kinds
carry representative texts, which no theorem below depends on. -/
def StorageError.message : StorageError → String
  | .Yanked => "bindle is yanked"
  | .CreateYanked => "cannot create yanked bindle"
  | .NotFound => "resource not found"
  | .io _ => "io error"
  | .Exists => "resource already exists"
  | .Malformed m => "malformed bindle: " ++ m
  | .Unserializable m => "unserializable bindle: " ++ m
  | .DigestMismatch => "digest mismatch"
  | .InvalidId => "invalid id"

/-- Modelled from the spec: the fixed TOML MIME constant. It is declared in the
server module (super::TOML_MIME_TYPE), outside src; only its fixedness matters. -/
def TOML_MIME_TYPE : String := "application/toml"

/-- An HTTP response as this layer observes it: a status code, an optional
Content-Type header and a body (bytes, modelled as a string). -/
structure Response where
  status : Nat
  contentType : Option String
  body : String
deriving DecidableEq

/-- The reply envelope (struct Toml in the source): either the successfully
encoded bytes or the unit-valued failure marker, exactly Result of bytes and unit. -/
structure Toml where
  inner : Except Unit String

/-- The function toml of the source (lines 21 to 29). Serialization by the
external toml crate is the parameter encode; on failure the map_err closure
writes exactly one diagnostic record (the eprintln call), counted in the second
component. -/
def toml {T : Type} (encode : T → Option String) (val : T) : Toml × Nat :=
  match encode val with
  | some bytes => ({ inner := .ok bytes }, 0)
  | none => ({ inner := .error () }, 1)

/-- Reply::into_response for Toml (source lines 37 to 52): on Ok, a fresh
response (status 200 by construction of Response::new) carrying the bytes with
the TOML content type inserted; on Err, the response of
StatusCode::INTERNAL_SERVER_ERROR, status 500 with an empty body. -/
def Toml.into_response (t : Toml) : Response :=
  match t.inner with
  | .ok body => { status := 200, contentType := some TOML_MIME_TYPE, body := body }
  | .error _ => { status := 500, contentType := none, body := "" }

/-- The spec operation wrap: the envelope applied to a value and converted to
its final response, paired with the number of diagnostic records written. -/
def wrap {T : Type} (encode : T → Option String) (val : T) : Response × Nat :=
  let p := toml encode val
  (p.1.into_response, p.2)

/-- warp::reply::WithStatus specialized to the Toml envelope, as used by
reply_from_error. -/
structure WithStatus where
  reply : Toml
  status : Nat

/-- warp::reply::with_status (trusted collaborator): pairs a reply with a
status code. -/
def with_status (reply : Toml) (status : Nat) : WithStatus :=
  { reply := reply, status := status }

/-- Reply::into_response for WithStatus (trusted collaborator, warp): converts
the inner reply and then overwrites its status with the stored one,
unconditionally. -/
def WithStatus.into_response (w : WithStatus) : Response :=
  { w.reply.into_response with status := w.status }

/-- Hexadecimal digit, for the escaped form of control characters. -/
def hexDigit (n : Nat) : Char :=
  if n < 10 then Char.ofNat (48 + n) else Char.ofNat (87 + n)

/-- Trusted collaborator (toml serializer): the escaping of one character
inside a TOML basic string: quote and backslash are backslash-escaped, common
control characters use their short escapes, any other control character its
four-digit unicode escape, and all remaining characters pass through. -/
def tomlEscapeChar (c : Char) : List Char :=
  if c = '"' then ['\\', '"']
  else if c = '\\' then ['\\', '\\']
  else if c = '\n' then ['\\', 'n']
  else if c = '\t' then ['\\', 't']
  else if c = '\r' then ['\\', 'r']
  else if c.toNat < 32 then
    ['\\', 'u', '0', '0', hexDigit (c.toNat / 16), hexDigit (c.toNat % 16)]
  else [c]

/-- The TOML basic-string form of a text: double-quoted with every character
escaped as needed. -/
def tomlEncodeStr (s : String) : String :=
  "\"" ++ String.mk ((s.toList.map tomlEscapeChar).flatten) ++ "\""

/-- Trusted collaborator (toml serializer): serializing a top-level Rust String
succeeds and emits the TOML basic-string form of the text. A bare string is a
TOML value, not a key-value table, so the output is the quoted escaped text and
never a document with fields. -/
def tomlEncodeString (s : String) : Option String :=
  some (tomlEncodeStr s)

/-- The function reply_from_error of the source (lines 83 to 91): renders the
error-like value to text, splices it by raw interpolation into the literal
line error = "..." (the format! call), hands that String to the toml envelope,
and wraps the result with the given status code. The diagnostic count of the
envelope is passed through. -/
def reply_from_error {E : Type} (render : E → String) (error : E)
    (status_code : Nat) : WithStatus × Nat :=
  let p := toml tomlEncodeString ("error = \"" ++ render error ++ "\"")
  (with_status p.1 status_code, p.2)

/-- Lines 60 to 76 of into_reply: the match computing the status code, together
with the rebinding of the mutable error to NotFound in the arm guarded by
e.kind() equal to the "resource absent" sub-kind. The pair holds the (possibly
remapped) error and the chosen status. -/
def classify : StorageError → StorageError × Nat
  | .Yanked => (.Yanked, 400)
  | .CreateYanked => (.CreateYanked, 422)
  | .NotFound => (.NotFound, 404)
  | .io k => if k = .notFound then (.NotFound, 404) else (.io k, 500)
  | .Exists => (.Exists, 400)
  | .Malformed m => (.Malformed m, 400)
  | .Unserializable m => (.Unserializable m, 400)
  | .DigestMismatch => (.DigestMismatch, 400)
  | .InvalidId => (.InvalidId, 400)

/-- The function into_reply of the source (lines 59 to 79): classify the error,
then build the error reply from the (possibly remapped) error and the chosen
status. -/
def into_reply (error : StorageError) : WithStatus × Nat :=
  let p := classify error
  reply_from_error StorageError.message p.1 p.2

/-- The classification match of into_reply in explicit state-passing form: the
diagnostic log is threaded through every arm, mirroring that no arm of the
source match writes a diagnostic or touches any other state. -/
def classifyTraced (error : StorageError) (log : List String) :
    (StorageError × Nat) × List String :=
  match error with
  | .Yanked => ((.Yanked, 400), log)
  | .CreateYanked => ((.CreateYanked, 422), log)
  | .NotFound => ((.NotFound, 404), log)
  | .io k => if k = .notFound then ((.NotFound, 404), log) else ((.io k, 500), log)
  | .Exists => ((.Exists, 400), log)
  | .Malformed m => ((.Malformed m, 400), log)
  | .Unserializable m => ((.Unserializable m, 400), log)
  | .DigestMismatch => ((.DigestMismatch, 400), log)
  | .InvalidId => ((.InvalidId, 400), log)

/-- Trusted collaborator (toml deserializer): the unescaping of one escaped
character inside a TOML basic string. -/
def tomlUnescapeChar (c : Char) : Option Char :=
  if c = 'n' then some '\n'
  else if c = 't' then some '\t'
  else if c = 'r' then some '\r'
  else if c = '"' then some '"'
  else if c = '\\' then some '\\'
  else none

/-- Trusted collaborator (toml deserializer): parsing the remainder of a TOML
basic string after its opening quote; yields the unescaped content and the
input left after the closing quote. Raw control characters are illegal inside
a basic string, so they fail the parse. -/
def parseBasicStringTail : List Char → Option (List Char × List Char)
  | [] => none
  | '"' :: rest => some ([], rest)
  | '\\' :: [] => none
  | '\\' :: e :: rest =>
    match tomlUnescapeChar e, parseBasicStringTail rest with
    | some u, some (s, r) => some (u :: s, r)
    | _, _ => none
  | c :: rest =>
    if c.toNat < 32 then none
    else
      match parseBasicStringTail rest with
      | some (s, r) => some (c :: s, r)
      | none => none

/-- Trusted collaborator (toml deserializer): decoding of a body expected to be
a TOML document holding exactly the single field error with a basic-string
value, the shape the documentation of into_reply promises. Returns the decoded
message on success. A trailing newline after the value is accepted. -/
def parseErrorDoc (body : String) : Option String :=
  match body.toList with
  | 'e' :: 'r' :: 'r' :: 'o' :: 'r' :: ' ' :: '=' :: ' ' :: '"' :: rest =>
    match parseBasicStringTail rest with
    | some (s, []) => some (String.mk s)
    | some (s, ['\n']) => some (String.mk s)
    | _ => none
  | _ => none

/-- Modelled from the spec: Invoice is an opaque domain value owned by the
invoice/parcel domain model; this layer treats it as an opaque serializable
blob. -/
structure Invoice where
  blob : String
deriving DecidableEq

/-- Modelled from the spec: Label is an opaque domain value identifying a
referenced parcel; treated as an opaque serializable blob. -/
structure Label where
  blob : String
deriving DecidableEq

/-- The struct InvoiceCreateResponse of the source (lines 13 to 18): the full
invoice paired with the optional ordered list of labels of missing parcels. -/
structure InvoiceCreateResponse where
  invoice : Invoice
  missing : Option (List Label)
deriving DecidableEq

/-- A field value appearing in the serde data model of an
InvoiceCreateResponse payload: either an invoice value or an optional label
list. -/
inductive ICRField where
  | invoiceVal (i : Invoice)
  | missingVal (m : Option (List Label))
deriving DecidableEq

/-- The serialization of InvoiceCreateResponse generated by its derive with
the camelCase rename (which leaves the single-word names invoice and missing
unchanged): an object with exactly the two named fields, in declaration order,
under the named envelope. -/
def serializeICR (r : InvoiceCreateResponse) : List (String × ICRField) :=
  [("invoice", .invoiceVal r.invoice), ("missing", .missingVal r.missing)]


/-- Claim C1: for every StorageError kind, the classifier inside into_reply
assigns exactly the status of the fixed table (Yanked 400, CreateYanked 422,
NotFound 404, IO with the resource-absent sub-kind 404, IO otherwise 500,
Exists 400, Malformed 400, Unserializable 400, DigestMismatch 400, InvalidId
400), and the mapping is total over the closed kind set: every error receives
a status from the table. -/
theorem classify_status_table :
    classify .Yanked = (.Yanked, 400) ∧
    classify .CreateYanked = (.CreateYanked, 422) ∧
    classify .NotFound = (.NotFound, 404) ∧
    (∀ k : IOKind,
      classify (.io k) = if k = .notFound then (.NotFound, 404) else (.io k, 500)) ∧
    classify .Exists = (.Exists, 400) ∧
    (∀ m : String, classify (.Malformed m) = (.Malformed m, 400)) ∧
    (∀ m : String, classify (.Unserializable m) = (.Unserializable m, 400)) ∧
    classify .DigestMismatch = (.DigestMismatch, 400) ∧
    classify .InvalidId = (.InvalidId, 400) ∧
    (∀ e : StorageError,
      (classify e).2 = 400 ∨ (classify e).2 = 404 ∨
      (classify e).2 = 422 ∨ (classify e).2 = 500) := by
  refine ⟨rfl, rfl, rfl, fun k => rfl, rfl, fun m => rfl, fun m => rfl, rfl, rfl, ?_⟩
  intro e
  rcases e with _ | _ | _ | k | _ | m | m | _ | _ <;> simp [classify]
  cases k <;> simp

/-- Claim C2: classifying an IO error with the resource-absent sub-kind yields
the identical pair as classifying NotFound, namely (NotFound, 404), the whole
replies coincide, and the remapped NotFound kind (not the original IO error)
is the value handed to reply_from_error for message rendering. -/
theorem io_notfound_remap :
    classify (.io .notFound) = classify .NotFound ∧
    classify (.io .notFound) = (.NotFound, 404) ∧
    into_reply (.io .notFound) = into_reply .NotFound ∧
    into_reply (.io .notFound)
      = reply_from_error StorageError.message .NotFound 404 :=
  ⟨rfl, rfl, rfl, rfl⟩

/-- Claim C3 (evaluation at the failing input): reply_from_error keeps the
given status, but its body is produced by raw interpolation into the line
error = "..." which is then serialized as one top-level TOML string, so the
body does not decode to a single error field equal to the message — neither
for a message containing quotes nor even for a plain message. The final
conjunct shows the decoder does accept the one-field document the function's
documentation promises, so the failures are the code's. -/
theorem raw_interpolation_corrupts_body :
    ((reply_from_error (fun s => s) "a \"b\"" 400).1.into_response).status = 400 ∧
    parseErrorDoc (((reply_from_error (fun s => s) "a \"b\"" 400).1.into_response).body)
      = none ∧
    parseErrorDoc (((reply_from_error (fun s => s) "oops" 400).1.into_response).body)
      = none ∧
    parseErrorDoc "error = \"a \\\"b\\\"\"" = some "a \"b\"" :=
  ⟨rfl, by decide, by decide, by decide⟩

/-- Claim C4: whenever encoding fails inside the envelope, the resulting
response has status 500 with an empty body and no content type, and exactly
one diagnostic record is written — never zero, never more than one. The
failure is absorbed into a normal response value. -/
theorem wrap_encoding_failure {T : Type} (encode : T → Option String) (val : T)
    (h : encode val = none) :
    (wrap encode val).2 = 1 ∧
    (wrap encode val).1 = { status := 500, contentType := none, body := "" } := by
  simp [wrap, toml, h, Toml.into_response]

/-- Witness for claim C4 at the constant failing encoder on Unit. -/
theorem wrap_encoding_failure_witness :
    (wrap (fun _ : Unit => (none : Option String)) ()).2 = 1 ∧
    (wrap (fun _ : Unit => (none : Option String)) ()).1
      = { status := 500, contentType := none, body := "" } :=
  wrap_encoding_failure (fun _ : Unit => none) () rfl

/-- A concrete healthy encoder on Bool, used to instantiate the round-trip law. -/
def encBool (v : Bool) : Option String :=
  some (if v then "t" else "f")

/-- The matching decoder for encBool. -/
def decBool (s : String) : Option Bool :=
  if s = "t" then some true else if s = "f" then some false else none

/-- Claim C5: for every serializable value, wrapping it with a healthy encoder
yields a response whose Content-Type is the fixed TOML MIME constant and whose
body decodes back to the value (encode-then-decode round trip); no diagnostic
is written. -/
theorem wrap_roundtrip {T : Type} (encode : T → Option String)
    (decode : String → Option T)
    (hrt : ∀ v b, encode v = some b → decode b = some v)
    (v : T) (b : String) (henc : encode v = some b) :
    (wrap encode v).1.contentType = some TOML_MIME_TYPE ∧
    (wrap encode v).1.body = b ∧
    decode ((wrap encode v).1.body) = some v ∧
    (wrap encode v).2 = 0 := by
  refine ⟨?_, ?_, ?_, ?_⟩ <;> simp [wrap, toml, henc, Toml.into_response]
  exact hrt v b henc

/-- Witness for claim C5 at the Bool encoder. -/
theorem wrap_roundtrip_witness :
    (wrap encBool true).1.contentType = some TOML_MIME_TYPE ∧
    (wrap encBool true).1.body = "t" ∧
    decBool ((wrap encBool true).1.body) = some true ∧
    (wrap encBool true).2 = 0 :=
  wrap_roundtrip encBool decBool
    (by intro v b h; cases v <;> simp [encBool] at h <;> subst h <;> decide)
    true "t" rfl

/-- Claim C6 (the half the program implements): the derive on
InvoiceCreateResponse generates serialization only, and it emits an object
with exactly the two named fields invoice and missing under the named
envelope (not flattened into the invoice's own fields), in declaration
order. The struct declares deny_unknown_fields, a strictness that only a
deserializer could enforce, yet derives only Serialize (with Debug), so the
program contains no deserializer for InvoiceCreateResponse at all: the
rejection of payloads with extra fields that the claim states is behavior the
code never generates. -/
theorem icr_serialize_closed_envelope :
    ∀ r : InvoiceCreateResponse,
      serializeICR r
        = [("invoice", .invoiceVal r.invoice), ("missing", .missingVal r.missing)] ∧
      (serializeICR r).map Prod.fst = ["invoice", "missing"] :=
  fun _ => ⟨rfl, rfl⟩

/-- Claim C7 (evaluation at the failing input): classifying Yanked yields
status 400 as claimed, but the body built on it is the whole interpolated line
serialized as a top-level TOML string; it does not decode to the single-field
record with error equal to "bindle is yanked" that the claim (and the
function's own documentation) states, while the decoder does accept that
documented form. -/
theorem yanked_reply_eval :
    (into_reply .Yanked).1.status = 400 ∧
    ((into_reply .Yanked).1.into_response).status = 400 ∧
    ((into_reply .Yanked).1.into_response).body
      = tomlEncodeStr "error = \"bindle is yanked\"" ∧
    parseErrorDoc (((into_reply .Yanked).1.into_response).body) = none ∧
    parseErrorDoc "error = \"bindle is yanked\"" = some "bindle is yanked" :=
  ⟨rfl, rfl, rfl, by decide, by decide⟩

/-- Claim C8: the classifier is deterministic — equal StorageError inputs give
equal classification results — and side-effect-free: in state-passing form it
leaves any diagnostic log untouched and its value part does not depend on that
state. -/
theorem classify_deterministic_pure :
    (∀ e1 e2 : StorageError, e1 = e2 → classify e1 = classify e2) ∧
    (∀ (e : StorageError) (log : List String),
      classifyTraced e log = (classify e, log)) := by
  constructor
  · intro e1 e2 h; rw [h]
  · intro e log
    rcases e with _ | _ | _ | k | _ | m | m | _ | _ <;> (try cases k) <;> rfl

/-- Witness for claim C8 at two equal concrete inputs and a concrete log. -/
theorem classify_deterministic_pure_witness :
    classify (.io .notFound) = classify (.io .notFound) ∧
    classifyTraced (.io .notFound) ["d"] = (classify (.io .notFound), ["d"]) :=
  ⟨classify_deterministic_pure.1 (.io .notFound) (.io .notFound) rfl,
   classify_deterministic_pure.2 (.io .notFound) ["d"]⟩

/-- Claim C9: the response built by reply_from_error carries the caller's
status unconditionally: the with_status wrapper overwrites the inner
envelope's status on the failure branch as well — the envelope alone would
answer 500 there — and on the success branch alike. -/
theorem with_status_overrides_envelope :
    (∀ (E : Type) (render : E → String) (error : E) (status : Nat),
      ((reply_from_error render error status).1.into_response).status = status) ∧
    (Toml.into_response { inner := .error () }).status = 500 ∧
    (∀ status : Nat,
      (WithStatus.into_response
        (with_status { inner := .error () } status)).status = status) ∧
    (∀ (t : Toml) (status : Nat),
      (WithStatus.into_response (with_status t status)).status = status) :=
  ⟨fun _ _ _ _ => rfl, rfl, fun _ => rfl, fun _ _ => rfl⟩

/-- Claim C10: for every StorageError, the status of the response produced by
into_reply lies in the set of 400, 404, 422 and 500; in particular it is at
least 400, so never a success or redirect status. -/
theorem into_reply_status_range :
    ∀ e : StorageError,
      (((into_reply e).1.into_response).status = 400 ∨
       ((into_reply e).1.into_response).status = 404 ∨
       ((into_reply e).1.into_response).status = 422 ∨
       ((into_reply e).1.into_response).status = 500) ∧
      400 ≤ ((into_reply e).1.into_response).status := by
  intro e
  have hs : ((into_reply e).1.into_response).status = (classify e).2 := rfl
  rw [hs]
  rcases e with _ | _ | _ | k | _ | m | m | _ | _ <;> (try cases k) <;>
    refine ⟨?_, ?_⟩ <;> simp [classify]

end BindleReply
